import Mathlib

/-!
Shallow embedding of the `databricks-cli` notebook-sync core:
`databricks_cli/utils.py` (error handling, `LoadingBar`) and
`databricks_cli/notebooks/cli.py` (path resolution, `pull`/`push`).
Machine state that Python keeps implicitly (current `sys.stdout`, the stop
event, exit codes) is made explicit; collaborator calls (the workspace API,
the config provider, the git subprocess) are modelled as inputs or as call
records, following the interfaces the spec gives for them.
-/

namespace DbxCli

/-! ## LoadingBar frame construction (`utils.py`, `LoadingBar._displayer`)

The displayer builds `bar = ' ' * width`, then
`bars = [bar[:i] + fill_char + bar[i+1:] for i in range(width)]`,
then `bars += list(reversed(bars[1:-1]))`.
Python strings become `List Char`; Python slicing `bar[:i]` / `bar[i+1:]`
becomes `take i` / `drop (i+1)` (both clamp, as Python slices do), and
`bars[1:-1]` becomes `(bars.drop 1).dropLast`. -/

/-- The blank bar, `' ' * width`. -/
def mkBar (width : Nat) : List Char := List.replicate width ' '

/-- One frame: `bar[:i] + fill_char + bar[i+1:]` with `bar = ' ' * width`. -/
def slot (width i : Nat) (fill_char : Char) : List Char :=
  (mkBar width).take i ++ [fill_char] ++ (mkBar width).drop (i + 1)

/-- The frame list `bars` as built before the render loop:
`[slot 0, …, slot (width-1)] ++ reversed(bars[1:-1])`. -/
def displayerBars (width : Nat) (fill_char : Char) : List (List Char) :=
  let bars := (List.range width).map (fun i => slot width i fill_char)
  bars ++ ((bars.drop 1).dropLast).reverse

/-- The cursor update at the end of each render step: `i = (i + 1) % n`. -/
def cursorStep (n i : Nat) : Nat := (i + 1) % n

/-! ## Path resolution (`notebooks/cli.py`) -/

/-- Inputs the resolver reads from collaborators: the raw output of
`git rev-parse --show-toplevel` and the username from `get_config()`
(the config provider is not part of this core; per the spec it yields a
username for the selected profile). -/
structure RepoEnv where
  gitToplevelOutput : String
  configUsername : String
  deriving Repr, DecidableEq

/-- Embeds `_get_repo_path_and_name`: strip the subprocess output
(`str.strip`, modelled by `String.trim`), then `name = path.split("/")[-1]`
(`splitOn` always returns a non-empty list, so `[-1]` is its last element). -/
def _get_repo_path_and_name (env : RepoEnv) : String × String :=
  let path := env.gitToplevelOutput.trim
  let name := (path.splitOn "/").getLastD ""
  (path, name)

/-- Embeds `_get_local_and_remote_folders(alt_remote_folder=None)`. -/
def _get_local_and_remote_folders (env : RepoEnv)
    (alt_remote_folder : Option String) : String × String :=
  let pn := _get_repo_path_and_name env
  let localFolder := pn.1 ++ "/notebooks"
  let username := env.configUsername
  let remote :=
    match alt_remote_folder with
    | some f => f
    | none => "/Users/" ++ username ++ "/" ++ pn.2
  (localFolder, remote)

end DbxCli

namespace DbxCli

/-! ## Exceptions and the command boundary (`utils.py`) -/

/-- A Python exception as seen by `eat_exceptions`: either a
`requests.exceptions.HTTPError` carrying its response's status code and
content, or any other exception carrying its type name and message. -/
inductive PyExc where
  | httpError (status : Nat) (content : String) (kind msg : String)
  | other (kind : String) (msg : String)
  deriving Repr, DecidableEq

/-- What a decorated command invocation observably does at the boundary:
return a value, print an `Error:` line (with the traceback before it when
the context debug flag is on) and exit with a code, or swallow the
exception and fall off the handler (returning `None`, no print, no exit). -/
inductive CommandOutcome (α : Type) where
  | ok (a : α)
  | exited (tracePrinted : Bool) (errorLine : String) (exitCode : Nat)
  | suppressed
  deriving Repr, DecidableEq

/-- Embeds `error_and_quit(message)`: print the traceback iff the click context
object's `debug_mode` is set, echo `Error: {message}`, `sys.exit(1)`. -/
def error_and_quit {α} (ctxDebug : Bool) (message : String) : CommandOutcome α :=
  .exited ctxDebug ("Error: " ++ message) 1

/-- The 401 remediation hint from `eat_exceptions`. -/
def authErrorMsg : String :=
  "Your authentication information may be incorrect. Please reconfigure with ``dbfs configure``"

/-- Embeds the `eat_exceptions` handler, applied to the body's result.
`debugMode` is the module-global `DEBUG_MODE`; `ctxDebug` is the click
context object's `debug_mode` read by `error_and_quit`. -/
def eat_exceptions {α} (debugMode ctxDebug : Bool)
    (run : Except PyExc α) : CommandOutcome α :=
  match run with
  | .ok a => .ok a
  | .error (.httpError status content _ _) =>
    if status = 401 then
      error_and_quit ctxDebug authErrorMsg
    else
      error_and_quit ctxDebug content
  | .error (.other kind msg) =>
    if !debugMode then
      error_and_quit ctxDebug (kind ++ ": " ++ msg)
    else
      .suppressed

/-- Whether an outcome is "printed an `Error:` line and exited with 1". -/
def CommandOutcome.exitsOneWithError {α} : CommandOutcome α → Bool
  | .exited _ line c => c == 1 && line.startsWith "Error: "
  | _ => false

/-- The message `eat_exceptions` hands to `error_and_quit` for an
exception (the spec-visible error text, without the `Error: ` prefix). -/
def boundaryMessage : PyExc → String
  | .httpError status content _ _ =>
    if status = 401 then authErrorMsg else content
  | .other kind msg => kind ++ ": " ++ msg

/-! ## LoadingBar as a scoped resource (`utils.py`, `__enter__`/`__exit__`)

The observable machine state: where `sys.stdout` points, the
`multiprocessing.Event` stop flag, whether the displayer process has been
joined (the displayer writes a final `'\n'` to the real stdout when it sees
the stop event, and `join` waits for that), whether the `StringIO` sink has
been closed, and how many times the release sequence has run. -/

structure LBState where
  stdoutIsOriginal : Bool
  stopEventSet : Bool
  displayerStarted : Bool
  displayerJoined : Bool
  finalNewlineWritten : Bool
  sinkClosed : Bool
  exitRuns : Nat
  deriving Repr, DecidableEq

/-- The state before `__enter__`: `__init__` saved the original stdout,
made a fresh open `StringIO`, a cleared `Event`, an unstarted `Process`. -/
def LBState.init : LBState :=
  ⟨true, false, false, false, false, false, 0⟩

/-- Embeds `__enter__`: `self.displayer.start()`, then `sys.stdout = self.dummy_stdout`. -/
def LoadingBar.enterFn (s : LBState) : LBState :=
  { s with displayerStarted := true, stdoutIsOriginal := false }

/-- Embeds `__exit__(exc_type, exc_value, tb)`: set the stop event, join the
displayer (which, having seen the stop event, has written its final
newline to the original stdout), restore `sys.stdout`, close the sink.
The body ignores its three arguments and has no `return`, so the call
returns `None`; the second component is that return value's truthiness. -/
def LoadingBar.exitFn (excInfo : Option PyExc) (s : LBState) : LBState × Bool :=
  let _ := excInfo
  let s1 := { s with stopEventSet := true }
  let s2 := { s1 with displayerJoined := true, finalNewlineWritten := true }
  let s3 := { s2 with stdoutIsOriginal := true }
  let s4 := { s3 with sinkClosed := true, exitRuns := s3.exitRuns + 1 }
  (s4, false)

/-- Result of a `with` block's body. -/
inductive WorkResult (α : Type) where
  | ok (a : α)
  | raised (e : PyExc)
  deriving Repr, DecidableEq

/-- Outcome of the whole `with` statement. -/
inductive WithOutcome (α : Type) where
  | ok (a : α)
  | raised (e : PyExc)
  | exceptionSwallowed
  deriving Repr, DecidableEq

/-- Python `with LoadingBar(...): body` semantics: `__enter__`, run the
body, then — on every exit path — `__exit__`; if the body raised and
`__exit__` returned a falsy value, the exception propagates. -/
def withLoadingBar {α} (work : WorkResult α) (s : LBState) :
    LBState × WithOutcome α :=
  let sIn := LoadingBar.enterFn s
  match work with
  | .ok a =>
    let (sOut, _) := LoadingBar.exitFn none sIn
    (sOut, .ok a)
  | .raised e =>
    let (sOut, suppress) := LoadingBar.exitFn (some e) sIn
    if suppress then (sOut, .exceptionSwallowed) else (sOut, .raised e)

/-- Where a write to `sys.stdout` lands in a given state. -/
inductive StdoutTarget where
  | originalDestination
  | inertSink
  deriving Repr, DecidableEq

def LBState.writeLandsAt (s : LBState) : StdoutTarget :=
  if s.stdoutIsOriginal then .originalDestination else .inertSink

/-! ## Command orchestration (`notebooks/cli.py`, `pull` / `push`)

The workspace API is an external collaborator (spec §6:
`exportDir(remotePath, localPath, overwrite, verbose)` and
`importDir(localPath, remotePath, overwrite, excludeHidden, verbose)`);
the commands are embedded as the call description they produce. -/

/-- Modelled from the spec: argument record of
`WorkspaceApi.export_workspace_dir` (spec §6 `exportDir`), whose
implementation is outside this core; field names follow the spec's
signature, matched positionally to the call in `pull`. -/
structure ExportCall where
  remotePath : String
  localPath : String
  overwrite : Bool
  verbose : Bool
  deriving Repr, DecidableEq

/-- Modelled from the spec: argument record of
`WorkspaceApi.import_workspace_dir` (spec §6 `importDir`), matched
positionally to the call in `push`. -/
structure ImportCall where
  localPath : String
  remotePath : String
  overwrite : Bool
  excludeHidden : Bool
  verbose : Bool
  deriving Repr, DecidableEq

/-- Constructor arguments of the `loadingbar(...)` the commands build.
The source's `interval=.25` seconds is kept in hundredths of a second to
stay in exact arithmetic. -/
structure BarParams where
  msg : String
  width : Nat
  fill_char : Char
  intervalHundredths : Nat
  deriving Repr, DecidableEq

/-- How a command runs its transfer: wrapped in the loading bar, or
directly. -/
inductive RunPlan (call : Type) where
  | withBar (bar : BarParams) (c : call)
  | direct (c : call)
  deriving Repr, DecidableEq

def RunPlan.usesBar {call : Type} : RunPlan call → Bool
  | .withBar _ _ => true
  | .direct _ => false

def RunPlan.theCall {call : Type} : RunPlan call → call
  | .withBar _ c => c
  | .direct c => c

/-- Embeds `pull(api_client, folder, verbose)` after decorators: resolve the
folders, build `work = export_workspace_dir(remote, local, True,
verbose=verbose)`, and run it under
`loadingbar(msg="Pulling from {remote}", width=10, fill_char="o",
interval=.25)` iff `not verbose`. -/
def pull (env : RepoEnv) (folder : Option String) (verbose : Bool) :
    RunPlan ExportCall :=
  let lr := _get_local_and_remote_folders env folder
  let call : ExportCall := ⟨lr.2, lr.1, true, verbose⟩
  if !verbose then
    .withBar ⟨"Pulling from " ++ lr.2, 10, 'o', 25⟩ call
  else
    .direct call

/-- Embeds `push(api_client, folder, verbose)` after decorators: resolve the
folders, build `work = import_workspace_dir(local, remote, True, False,
verbose=verbose)`, and run it under
`loadingbar(msg="Pushing to {remote}", width=10, fill_char="o",
interval=.25)` iff `not verbose`. -/
def push (env : RepoEnv) (folder : Option String) (verbose : Bool) :
    RunPlan ImportCall :=
  let lr := _get_local_and_remote_folders env folder
  let call : ImportCall := ⟨lr.1, lr.2, true, false, verbose⟩
  if !verbose then
    .withBar ⟨"Pushing to " ++ lr.2, 10, 'o', 25⟩ call
  else
    .direct call

/-- Holds when `needle` occurs as a contiguous substring of `hay` (used to state
"the message names the remote folder" and "the message contains the
exception's kind"). -/
def StringMentions (needle hay : String) : Prop :=
  List.IsInfix needle.data hay.data

instance (needle hay : String) : Decidable (StringMentions needle hay) :=
  List.decidableInfix needle.data hay.data

end DbxCli

namespace DbxCli

/-! ## Claims about path resolution -/

/-- C1: for every repository top-level path `P` (the version-control tool's
output with surrounding whitespace stripped) and every configured username
`U`, resolving the sync endpoints with no override yields
`local_folder = P ++ "/notebooks"` and
`remote_folder = "/Users/" ++ U ++ "/" ++ basename P`, where `basename P`
is the final `/`-separated segment of `P`. -/
theorem C1_resolve_no_override (raw u : String) :
    _get_local_and_remote_folders ⟨raw, u⟩ none =
      (raw.trim ++ "/notebooks",
       "/Users/" ++ u ++ "/" ++ ((raw.trim).splitOn "/").getLastD "") := rfl

/-- C7: for every override string `F`, endpoint resolution yields
`remote_folder = F`, independently of the configured username, and
`local_folder` is still `{repository_root}/notebooks`. -/
theorem C7_resolve_with_override (raw u uOther f : String) :
    (_get_local_and_remote_folders ⟨raw, u⟩ (some f)).2 = f ∧
    (_get_local_and_remote_folders ⟨raw, u⟩ (some f)).1 =
      raw.trim ++ "/notebooks" ∧
    _get_local_and_remote_folders ⟨raw, u⟩ (some f) =
      _get_local_and_remote_folders ⟨raw, uOther⟩ (some f) :=
  ⟨rfl, rfl, rfl⟩

/-! ## Claims about the command orchestration -/

/-- C4: every invocation of `pull` passes `overwrite = true` to the
workspace export call, and every invocation of `push` passes
`overwrite = true` to the workspace import call, on every code path
(both the bar-wrapped and the direct one). -/
theorem C4_always_overwrite (env : RepoEnv) (folder : Option String)
    (verbose : Bool) :
    ((pull env folder verbose).theCall).overwrite = true ∧
    ((push env folder verbose).theCall).overwrite = true := by
  cases verbose <;>
    simp [pull, push, RunPlan.theCall]

/-- C8: the transfer of `pull`/`push` runs inside the progress indicator
exactly when the verbose flag is false, and in that case the bar's message
names the resolved remote folder; with `verbose = true` it runs directly. -/
theorem C8_bar_iff_not_verbose (env : RepoEnv) (folder : Option String)
    (verbose : Bool) :
    ((pull env folder verbose).usesBar = !verbose) ∧
    ((push env folder verbose).usesBar = !verbose) ∧
    (pull env folder false = RunPlan.withBar
      ⟨"Pulling from " ++ (_get_local_and_remote_folders env folder).2,
        10, 'o', 25⟩
      ⟨(_get_local_and_remote_folders env folder).2,
        (_get_local_and_remote_folders env folder).1, true, false⟩) ∧
    (push env folder false = RunPlan.withBar
      ⟨"Pushing to " ++ (_get_local_and_remote_folders env folder).2,
        10, 'o', 25⟩
      ⟨(_get_local_and_remote_folders env folder).1,
        (_get_local_and_remote_folders env folder).2, true, false, false⟩) ∧
    (pull env folder true = RunPlan.direct
      ⟨(_get_local_and_remote_folders env folder).2,
        (_get_local_and_remote_folders env folder).1, true, true⟩) ∧
    (push env folder true = RunPlan.direct
      ⟨(_get_local_and_remote_folders env folder).1,
        (_get_local_and_remote_folders env folder).2, true, false, true⟩) ∧
    StringMentions (_get_local_and_remote_folders env folder).2
      ("Pulling from " ++ (_get_local_and_remote_folders env folder).2) ∧
    StringMentions (_get_local_and_remote_folders env folder).2
      ("Pushing to " ++ (_get_local_and_remote_folders env folder).2) := by
  refine ⟨?_, ?_, rfl, rfl, rfl, rfl, ?_, ?_⟩
  · cases verbose <;> rfl
  · cases verbose <;> rfl
  · exact ⟨"Pulling from ".data, [], by simp⟩
  · exact ⟨"Pushing to ".data, [], by simp⟩

/-! ## Claims about the loading-bar scoped resource -/

/-- C5: on every exit of the `with loadingbar(...)` block — whether the
wrapped work returned normally or raised — the release sequence runs
exactly once: the stop event is set, the displayer is joined (having
emitted its final newline), `sys.stdout` is restored to the original, and
the sink is closed; afterwards a write to standard output lands at the
original destination. -/
theorem C5_release_always_runs_once {α : Type} (work : WorkResult α)
    (s : LBState) :
    ((withLoadingBar work s).1.stopEventSet = true) ∧
    ((withLoadingBar work s).1.displayerJoined = true) ∧
    ((withLoadingBar work s).1.finalNewlineWritten = true) ∧
    ((withLoadingBar work s).1.stdoutIsOriginal = true) ∧
    ((withLoadingBar work s).1.sinkClosed = true) ∧
    ((withLoadingBar work s).1.exitRuns = s.exitRuns + 1) ∧
    ((withLoadingBar work s).1.writeLandsAt =
      StdoutTarget.originalDestination) := by
  cases work <;>
    simp [withLoadingBar, LoadingBar.enterFn, LoadingBar.exitFn,
      LBState.writeLandsAt]

/-- C9: the `__exit__` handler returns a falsy value for every argument
and every state, so an exception raised by the wrapped work always
propagates out of the `with` statement after the cleanup ran. -/
theorem C9_exit_never_suppresses {α : Type} (excInfo : Option PyExc)
    (s sWith : LBState) (e : PyExc) :
    ((LoadingBar.exitFn excInfo s).2 = false) ∧
    ((withLoadingBar (WorkResult.raised e : WorkResult α) sWith).2 =
      WithOutcome.raised e) := by
  exact ⟨rfl, rfl⟩

/-! ## Claims about the command error boundary -/

/-- C3 counterexample: with the module-global `DEBUG_MODE` set (a debug
setting), a non-HTTP exception raised inside the command is caught but
nothing is printed and the process does not exit — refuting "regardless of
any debug setting, … printed as `Error: {message}` … exit code 1". -/
theorem C3_counterexample :
    (eat_exceptions true false
        (Except.error (PyExc.other "ValueError" "boom") : Except PyExc Unit) =
      CommandOutcome.suppressed) ∧
    (CommandOutcome.exitsOneWithError
        (eat_exceptions true false
          (Except.error (PyExc.other "ValueError" "boom") :
            Except PyExc Unit)) = false) :=
  ⟨rfl, rfl⟩

/-- C3 (amended): when the module-global `DEBUG_MODE` is false, every
exception raised inside a command is caught exactly once at the boundary,
printed as the single line `Error: {message}`, and the process exits with
code 1 (with the failure trace additionally printed before that line
exactly when the context debug flag is enabled); when `DEBUG_MODE` is
true, HTTP failures still behave that way, but any other exception is
caught and silently discarded: nothing is printed and the process does not
exit. -/
theorem C3_boundary_policy (ctxDebug : Bool) (e : PyExc) (status : Nat)
    (content k m : String) :
    (eat_exceptions false ctxDebug (Except.error e : Except PyExc Unit) =
      CommandOutcome.exited ctxDebug ("Error: " ++ boundaryMessage e) 1) ∧
    (eat_exceptions true ctxDebug
        (Except.error (PyExc.httpError status content k m) :
          Except PyExc Unit) =
      CommandOutcome.exited ctxDebug
        ("Error: " ++ boundaryMessage (PyExc.httpError status content k m))
        1) ∧
    (eat_exceptions true ctxDebug
        (Except.error (PyExc.other k m) : Except PyExc Unit) =
      CommandOutcome.suppressed) := by
  refine ⟨?_, ?_, rfl⟩
  · cases e with
    | httpError s2 c2 k2 m2 =>
      simp only [eat_exceptions, boundaryMessage, error_and_quit]
      split <;> rfl
    | other k2 m2 => rfl
  · simp only [eat_exceptions, boundaryMessage, error_and_quit]
    split <;> rfl

/-- C6 counterexample: a non-401 HTTP failure (status 500, response body
`"server unavailable"`) is printed as `Error: server unavailable`, which
does not contain the exception's kind `HTTPError` (nor its message) —
refuting "for every other HTTP failure, the printed error message contains
the exception's kind and message". -/
theorem C6_counterexample :
    (eat_exceptions false false
        (Except.error (PyExc.httpError 500 "server unavailable" "HTTPError"
          "500 Server Error") : Except PyExc Unit) =
      CommandOutcome.exited false "Error: server unavailable" 1) ∧
    ¬ StringMentions "HTTPError" "Error: server unavailable" := by
  exact ⟨rfl, by decide⟩

/-! ## Claims about the frame sweep of the loading-bar displayer -/

theorem length_displayerBars (w : Nat) (c : Char) :
    (displayerBars w c).length = w + (w - 1 - 1) := by
  simp [displayerBars]

theorem getElem_displayerBars (w : Nat) (c : Char) (j : Nat)
    (h : j < (displayerBars w c).length) :
    (displayerBars w c).get ⟨j, h⟩ =
      slot w (if j < w then j else 2 * w - 2 - j) c := by
  have hlen : (displayerBars w c).length = w + (w - 1 - 1) :=
    length_displayerBars w c
  rw [List.get_eq_getElem]
  show (displayerBars w c)[j] = _
  unfold displayerBars
  by_cases hj : j < w
  · rw [List.getElem_append_left (by simpa using hj)]
    simp [hj]
  · rw [List.getElem_append_right (by simpa using Nat.le_of_not_lt hj)]
    rw [List.getElem_reverse]
    rw [List.getElem_dropLast]
    rw [List.getElem_drop]
    rw [List.getElem_map]
    rw [List.getElem_range]
    have hw : 3 ≤ w := by
      rw [hlen] at h
      omega
    have hj2 : j < 2 * w - 2 := by
      rw [hlen] at h
      omega
    simp only [if_neg hj]
    congr 1
    simp only [List.length_dropLast, List.length_drop, List.length_map,
      List.length_range]
    omega

theorem mem_displayerBars {w : Nat} {c : Char} {f : List Char}
    (hf : f ∈ displayerBars w c) : ∃ i, i < w ∧ f = slot w i c := by
  unfold displayerBars at hf
  simp only [List.mem_append, List.mem_reverse] at hf
  have hmem : f ∈ (List.range w).map (fun i => slot w i c) := by
    rcases hf with h | h
    · exact h
    · exact List.drop_subset _ _ (List.dropLast_subset _ h)
  simp only [List.mem_map, List.mem_range] at hmem
  obtain ⟨i, hi, rfl⟩ := hmem
  exact ⟨i, hi, rfl⟩

theorem slot_length {w i : Nat} (hi : i < w) (c : Char) :
    (slot w i c).length = w := by
  simp [slot, mkBar]
  omega

theorem slot_count {w i : Nat} {c : Char} (hc : c ≠ ' ') :
    (slot w i c).count c = 1 := by
  simp [slot, mkBar, List.count_append, List.count_replicate,
    List.take_replicate, List.drop_replicate]
  rw [if_neg (fun h => hc h.symm), if_neg (fun h => hc h.symm)]

/-- C2 counterexample: at width 3 the precomputed frame list has 4
entries, not 3 — refuting "for every width, the cyclic frame sequence
built before the render loop has length width". -/
theorem C2_counterexample :
    (displayerBars 3 '.').length = 4 ∧ (4 : Nat) ≠ 3 := by decide

/-- C2 (amended): the frame sequence built before the render loop is the
palindromic bounce — frame `j` shows the fill character at position `j`
while `j < width`, and at position `2*width - 2 - j` on the way back —
and its length is `2*width - 2` for every width ≥ 2 (and `width` itself
for width ≤ 1), not `width`. -/
theorem C2_frame_sequence (w : Nat) (c : Char) :
    ((displayerBars w c).length = if w ≤ 1 then w else 2 * w - 2) ∧
    ∀ j (h : j < (displayerBars w c).length),
      (displayerBars w c).get ⟨j, h⟩ =
        slot w (if j < w then j else 2 * w - 2 - j) c := by
  constructor
  · rw [length_displayerBars]
    split <;> omega
  · intro j h
    exact getElem_displayerBars w c j h

/-- C2 witness: the bounce evaluated at width 3, frame index 3 — the
first return frame, showing the fill at position `2*3 - 2 - 3 = 1`. -/
theorem C2_witness :
    (displayerBars 3 'o').get ⟨3, by decide⟩ =
      slot 3 (if 3 < 3 then 3 else 2 * 3 - 2 - 3) 'o' :=
  (C2_frame_sequence 3 'o').2 3 (by decide)

/-- C10 counterexample: with width 2 and the single-character fill `' '`,
the first precomputed frame is `"  "`, which contains the fill character
at two positions, not exactly one — refuting the claim for the fill
character `' '`. -/
theorem C10_counterexample :
    (displayerBars 2 ' ').head? = some [' ', ' '] ∧
    List.count ' ' [' ', ' '] = 2 ∧ (2 : Nat) ≠ 1 := by decide

/-- C10 (amended): for every width ≥ 1 and single-character fill distinct
from the blank `' '` that pads the bar, the frame list is non-empty, each
precomputed frame has exactly `width` characters and contains the fill
character at exactly one position, and the render loop's cursor update
`(i+1) % n` never leaves the list's range; for width = 0 the frame list
is empty and the first render step's indexing (position 0) is out of
range. -/
theorem C10_frame_safety (w : Nat) (c : Char) (hw : 1 ≤ w)
    (hc : c ≠ ' ') :
    (1 ≤ (displayerBars w c).length) ∧
    (∀ f ∈ displayerBars w c, f.length = w ∧ f.count c = 1) ∧
    (∀ i, cursorStep (displayerBars w c).length i <
      (displayerBars w c).length) ∧
    (displayerBars 0 c = []) ∧
    ((displayerBars 0 c)[0]? = none) := by
  have hpos : 1 ≤ (displayerBars w c).length := by
    rw [length_displayerBars]
    omega
  refine ⟨hpos, ?_, ?_, rfl, rfl⟩
  · intro f hf
    obtain ⟨i, hi, rfl⟩ := mem_displayerBars hf
    exact ⟨slot_length hi c, slot_count hc⟩
  · intro i
    exact Nat.mod_lt _ hpos

/-- C10 witness: the frame-safety facts evaluated at width 3 with fill
`'o'`. -/
theorem C10_witness :
    ((1 : Nat) ≤ (displayerBars 3 'o').length) ∧
    (∀ f ∈ displayerBars 3 'o', f.length = 3 ∧ f.count 'o' = 1) ∧
    (∀ i, cursorStep (displayerBars 3 'o').length i <
      (displayerBars 3 'o').length) ∧
    (displayerBars 0 'o' = []) ∧
    ((displayerBars 0 'o')[0]? = none) :=
  C10_frame_safety 3 'o' (by decide) (by decide)

/-- C6 (amended): for every HTTP failure caught at the command boundary,
regardless of either debug flag: on status 401 the printed message is the
specific remediation hint directing the user to reconfigure; on any other
status the printed message is the HTTP response's content (not the
exception's kind and message); in both cases the process exits with
code 1. -/
theorem C6_http_failures (debugMode ctxDebug : Bool) (status : Nat)
    (content k m : String) :
    eat_exceptions debugMode ctxDebug
        (Except.error (PyExc.httpError status content k m) :
          Except PyExc Unit) =
      CommandOutcome.exited ctxDebug
        ("Error: " ++ if status = 401 then authErrorMsg else content) 1 := by
  simp only [eat_exceptions, error_and_quit]
  split <;> rfl

end DbxCli
